import Mathlib

/-!
Verification of the conversation state machine of the `tt2` revision-tutoring
backend (`backend/core/orchestrator_agent.py`, `backend/core/revision_agent.py`,
`backend/core/conclusion_agent.py`).

The text-generation service is a black box (spec section 2): every call to it is
modelled by an oracle value (`GenService`).  The string post-processing that the
repository applies to generation output (verdict extraction, relevance
classification, bubble parsing) is embedded faithfully below.  Python strings
are modelled as Lean `String` values, with character-level re-implementations of
the Python primitives (`strip`, `lower`, `upper`, `split`, `in`, `startswith`,
slicing) so that all definitions evaluate inside the kernel.  Python `len` on a
string counts code points, as does `List.length` on `String.data`.
-/

/-- Python `sep.join(...)` over Lean strings. -/
def pyJoin (sep : String) : List String → String
  | [] => ""
  | [x] => x
  | x :: y :: xs => x ++ sep ++ pyJoin sep (y :: xs)

/-- Python `s.lower()` (ASCII case mapping, as used by the repository). -/
def pyLower (s : String) : String := String.mk (s.data.map Char.toLower)

/-- Python `s.upper()` (ASCII case mapping, as used by the repository). -/
def pyUpper (s : String) : String := String.mk (s.data.map Char.toUpper)

/-- Python `s.strip()`: drop leading and trailing whitespace. -/
def pyTrim (s : String) : String :=
  String.mk (((s.data.dropWhile Char.isWhitespace).reverse.dropWhile Char.isWhitespace).reverse)

/-- Python `s.startswith(pre)`. -/
def pyStartsWith (s pre : String) : Bool := pre.data.isPrefixOf s.data

/-- Occurrence of `needle` as a contiguous substring of `hay` (char lists). -/
def infixOfChars (needle : List Char) : List Char → Bool
  | [] => needle.isEmpty
  | c :: t => needle.isPrefixOf (c :: t) || infixOfChars needle t

/-- Python `needle in hay` for strings. -/
def pyIn (needle hay : String) : Bool := infixOfChars needle.data hay.data

/-- Python `s[:n]` (first `n` code points). -/
def pySlice (s : String) (n : Nat) : String := String.mk (s.data.take n)

/-- Python `len(s)` in code points. -/
def pyLen (s : String) : Nat := s.data.length

/-- Splitter for `s.split(sep)` with the (always nonempty) separator given as a
head character plus rest; mirrors CPython `str.split` with an explicit
separator.  The fuel argument only bounds the recursion (each step consumes at
least one character, so `cs.length` fuel always suffices); structural recursion
on it keeps the function computable inside the kernel. -/
def pySplitAux (s0 : Char) (srest : List Char) : Nat → List Char → List Char → List (List Char)
  | _, [], acc => [acc.reverse]
  | 0, cs, acc => [acc.reverse ++ cs]
  | fuel + 1, c :: rest, acc =>
    if (s0 :: srest).isPrefixOf (c :: rest) then
      acc.reverse :: pySplitAux s0 srest fuel (rest.drop srest.length) []
    else
      pySplitAux s0 srest fuel rest (c :: acc)

/-- Python `s.split(sep)` for a nonempty separator. -/
def pySplit (s : String) (sep : String) : List String :=
  match sep.data with
  | [] => [s]
  | s0 :: srest => (pySplitAux s0 srest s.data.length s.data []).map String.mk

/-- Python `s.split()` (whitespace mode): runs of whitespace separate words. -/
def pySplitWhitespaceAux (cs : List Char) (acc : List Char) : List (List Char) :=
  match cs with
  | [] => [acc.reverse]
  | c :: rest =>
    if c.isWhitespace then acc.reverse :: pySplitWhitespaceAux rest []
    else pySplitWhitespaceAux rest (c :: acc)

/-- Python `s.split()` with no argument. -/
def pySplitWhitespace (s : String) : List String :=
  ((pySplitWhitespaceAux s.data []).map String.mk).filter (· ≠ "")

/-- Python `s.split(":", 1)[1]`: the text after the first colon (empty when there
is no colon; all call sites are guarded so that a colon exists). -/
def pyAfterColon (s : String) : String :=
  match pySplit s ":" with
  | [] => ""
  | _ :: t => pyJoin ":" t

/-- The apostrophe character as a one-character string, used to assemble the
message literals of the source. -/
def apos : String := String.mk ['\'']

/-- Result record of `revision_agent.evaluate_answer`: the `verdict`,
`justification` and `correction` keys are always present. -/
structure EvalResult where
  verdict : String
  justification : String
  correction : String
deriving Repr, DecidableEq

/-- One step of the line loop of `revision_agent.evaluate_answer` (lines
403-410): the accumulator is `(verdict, justification, correction)` and a
matching line overwrites the corresponding component. -/
def evalLineStep (acc : String × String × String) (line : String) :
    String × String × String :=
  let line_low := pyTrim line
  if pyStartsWith (pyUpper line_low) "VERDICT:" then
    (pyUpper (pyTrim (pyAfterColon line_low)), acc.2.1, acc.2.2)
  else if pyStartsWith (pyUpper line_low) "JUSTIFICATION:" then
    (acc.1, pyTrim (pyAfterColon line_low), acc.2.2)
  else if pyStartsWith (pyUpper line_low) "CORRECTION:" then
    (acc.1, acc.2.1, pyTrim (pyAfterColon line_low))
  else acc

/-- `revision_agent.evaluate_answer` (lines 388-416), as a function of the raw
generation-service response; the prompt construction only feeds the black box
and is elided.  `resp.splitlines()` is modelled as splitting on newline.
The Python `correction or justification` uses the justification when the
correction is the empty string. -/
def evaluate_answer (resp : String) : EvalResult :=
  let r := (pySplit resp "\n").foldl evalLineStep ("WRONG", "", "")
  { verdict := r.1, justification := r.2.1,
    correction := if r.2.2 = "" then r.2.1 else r.2.2 }

/-- `revision_agent.check_question_relevance` (lines 431-439), as a function of
the raw generation-service response. -/
def check_question_relevance (resp : String) : String :=
  let classification := pyUpper (pyTrim resp)
  if pyIn "RELEVANT" classification then "RELEVANT" else "IRRELEVANT"

/-- A button of a chat bubble (`{"text": ..., "action": ...}`). -/
structure SButton where
  text : String
  action : String
deriving Repr, DecidableEq

/-- One chat bubble as built by the repository
(`assistant_message` / `message_type` / `buttons` / `section`); the Python
`section` key is renamed `section_label` because `section` is a Lean keyword. -/
structure Msg where
  assistant_message : String
  message_type : String
  buttons : List SButton := []
  section_label : String := ""
deriving Repr, DecidableEq, Inhabited

/-- The section currently being collected by `_parse_detailed_bubbles`. -/
inductive SectionKey where
  | definition
  | technical
  | examples
deriving Repr, DecidableEq

/-- The `sections` dict of `_parse_detailed_bubbles`; a field is `none` when the
key was never assigned. -/
structure Sections where
  definition : Option String := none
  technical : Option String := none
  examples : Option String := none
deriving Repr, DecidableEq

/-- Assignment `sections[current_section] = '\n'.join(current_content).strip()`,
performed only when both a current section and collected content exist. -/
def flushSection (cur : Option SectionKey) (content : List String) (secs : Sections) :
    Sections :=
  match cur with
  | none => secs
  | some k =>
    if content = [] then secs
    else
      let v := pyTrim (pyJoin "\n" content)
      match k with
      | .definition => { secs with definition := some v }
      | .technical => { secs with technical := some v }
      | .examples => { secs with examples := some v }

/-- The line loop of `_parse_detailed_bubbles` (lines 64-97), including the
final flush of the last section. -/
def parseSectionsLoop : List String → Option SectionKey → List String → Sections → Sections
  | [], cur, content, secs => flushSection cur content secs
  | line :: rest, cur, content, secs =>
    let ls := pyTrim line
    if pyStartsWith ls "BUBBLE_1_DEFINITION:" then
      parseSectionsLoop rest (some .definition) [] (flushSection cur content secs)
    else if pyStartsWith ls "BUBBLE_2_TECHNICAL:" then
      parseSectionsLoop rest (some .technical) [] (flushSection cur content secs)
    else if pyStartsWith ls "BUBBLE_3_EXAMPLES:" then
      parseSectionsLoop rest (some .examples) [] (flushSection cur content secs)
    else
      match cur with
      | some _ => parseSectionsLoop rest cur (content ++ [line]) secs
      | none => parseSectionsLoop rest none content secs

/-- Bubble creation from one entry of the `sections` dict: a bubble is emitted
when the key is present and its value is a nonempty string. -/
def optBubble (v : Option String) (label : String) : List Msg :=
  match v with
  | some t =>
    if t ≠ "" then
      [{ assistant_message := t, message_type := "concept_section", section_label := label }]
    else []
  | none => []

/-- The bubbles assembled from the parsed sections (lines 104-123), before the
fallback check. -/
def parsedSectionBubbles (response : String) : List Msg :=
  let secs := parseSectionsLoop (pySplit response "\n") none [] {}
  optBubble secs.definition "Definition" ++ optBubble secs.technical "Technical" ++
    optBubble secs.examples "Examples"

/-- `_create_placeholder_bubbles` (revision_agent lines 274-292). -/
def _create_placeholder_bubbles (title : String) : List Msg :=
  [{ assistant_message := "💡 **Definition & Core Concepts**\n\n**" ++ title ++
      ":** An important concept in this topic that helps us understand fundamental principles.",
     message_type := "concept_section", section_label := "Definition" },
   { assistant_message := "🔬 **How It Works**\n\n**" ++ title ++
      "** involves understanding the key mechanisms and processes that make this concept work in practice.",
     message_type := "concept_section", section_label := "Technical" },
   { assistant_message := "📚 **Examples & Applications**\n\n🏠 **Example 1:** Everyday applications of " ++
      pyLower title ++ "\n\n🔬 **Example 2:** Scientific demonstrations of " ++ pyLower title,
     message_type := "concept_section", section_label := "Examples" }]

/-- Dropping a prefix cannot lengthen a list (termination helper). -/
theorem lengthDropWhileLe {α : Type} (p : α → Bool) (l : List α) :
    (l.dropWhile p).length ≤ l.length := by
  induction l with
  | nil => simp
  | cons c t ih =>
    by_cases h : p c = true
    · simp only [List.dropWhile_cons, h, if_true, List.length_cons]
      omega
    · simp [List.dropWhile_cons, h]

/-- Sentence-boundary characters of `re.split(r'[.!?]\s+', content)`. -/
def isSentPunct (c : Char) : Bool := c = '.' || c = '!' || c = '?'

/-- `re.split(r'[.!?]\s+', content)`: cut after a sentence punctuation character
that is followed by whitespace; the punctuation and the whitespace run are
consumed.  Fuel-bounded structural recursion (`cs.length` fuel suffices, since
every step consumes at least one character). -/
def reSplitSentencesAux : Nat → List Char → List Char → List String
  | _, [], cur => [String.mk cur.reverse]
  | 0, cs, cur => [String.mk (cur.reverse ++ cs)]
  | fuel + 1, c :: rest, cur =>
    if isSentPunct c && ((rest.head?.map Char.isWhitespace).getD false) then
      String.mk cur.reverse :: reSplitSentencesAux fuel (rest.dropWhile Char.isWhitespace) []
    else
      reSplitSentencesAux fuel rest (c :: cur)

/-- `re.split(r'[.!?]\s+', content)` over a character list. -/
def reSplitSentences (cs : List Char) (cur : List Char) : List String :=
  reSplitSentencesAux cs.length cs cur

/-- Grouping of sentences into chunks of at most three, joined with spaces
(revision_agent lines 160-166); fuel-bounded structural recursion (the list
length suffices as fuel since each step consumes at least one sentence). -/
def groupSentencesAux : Nat → List String → List String
  | _, [] => []
  | 0, l => [pyJoin " " l]
  | fuel + 1, s :: rest =>
    let k := min 3 (s :: rest).length
    pyJoin " " ((s :: rest).take k) :: groupSentencesAux fuel ((s :: rest).drop k)

/-- Grouping of sentences into chunks of at most three. -/
def groupSentences (sentences : List String) : List String :=
  groupSentencesAux sentences.length sentences

/-- Break characters of `find_break_point`. -/
def isBreakChar (c : Char) : Bool := c = '.' || c = '!' || c = '?' || c = '\n'

/-- Forward scan of `find_break_point`: first position in `[i, i + fuel)`
holding a break character, returned as position plus one (the caller passes
`stop - i` as fuel, so the scan covers `[i, stop)`). -/
def fbpForward (cs : List Char) : Nat → Nat → Option Nat
  | _, 0 => none
  | i, fuel + 1 =>
    if (cs.get? i).any isBreakChar then some (i + 1)
    else fbpForward cs (i + 1) fuel

/-- Backward scan of `find_break_point`: positions `i, i - 1, ...` for `fuel`
steps (the caller passes `i - lo` as fuel, covering `i` down to `lo + 1`). -/
def fbpBackward (cs : List Char) : Nat → Nat → Option Nat
  | _, 0 => none
  | i, fuel + 1 =>
    if (cs.get? i).any isBreakChar then some (i + 1)
    else fbpBackward cs (i - 1) fuel

/-- `find_break_point` of `_create_detailed_fallback` (lines 175-190): a
sentence end near the target position, scanning forward within 50 characters
then backward. -/
def find_break_point (cs : List Char) (target : Nat) : Nat :=
  let search_start := target - 50
  let search_end := min cs.length (target + 50)
  match fbpForward cs target (search_end - target) with
  | some r => r
  | none =>
    match fbpBackward cs target (target - search_start) with
    | some r => r
    | none => target

/-- Strategy 4 of `_create_detailed_fallback` (lines 171-200): divide the
content into thirds at sentence-friendly break points. -/
def splitIntoThirds (content : String) : List String :=
  let cs := content.data
  let third := pyLen content / 3
  let break1 := find_break_point cs third
  let break2 := find_break_point cs (2 * third)
  ([pyTrim (String.mk (cs.take break1)),
    pyTrim (String.mk ((cs.drop break1).take (break2 - break1))),
    pyTrim (String.mk (cs.drop break2))]).filter (· ≠ "")

/-- Python `max(range(len(ps)), key=...)`: first index of maximal length. -/
def argmaxLenIdx (ps : List String) : Nat :=
  (List.range ps.length).foldl
    (fun best i => if pyLen (ps.getD i "") > pyLen (ps.getD best "") then i else best) 0

/-- Scan for a sentence punctuation character in `[i, i + fuel)`
(lines 211-212; the caller passes `stop - i` as fuel). -/
def findSplitPunct (cs : List Char) : Nat → Nat → Option Nat
  | _, 0 => none
  | i, fuel + 1 =>
    if (cs.get? i).any isSentPunct then some i
    else findSplitPunct cs (i + 1) fuel

/-- The `while len(paragraphs) < 3 and paragraphs` loop of
`_create_detailed_fallback` (lines 203-220): repeatedly split the longest
paragraph at a sentence break near its middle; stop when no split is found or
the longest paragraph is short.  Each pass grows the list by one entry, so the
loop runs at most twice; fuel 3 therefore reproduces the loop exactly. -/
def ensureThreeParagraphsAux : Nat → List String → List String
  | 0, ps => ps
  | fuel + 1, ps =>
    if ps.length < 3 && !(ps = ([] : List String)) then
      let idx := argmaxLenIdx ps
      let longest := ps.getD idx ""
      if pyLen longest > 100 then
        let mid := pyLen longest / 2
        match findSplitPunct longest.data mid (min (mid + 50) (pyLen longest) - mid) with
        | some i =>
          let part1 := pyTrim (String.mk (longest.data.take (i + 1)))
          let part2 := pyTrim (String.mk (longest.data.drop (i + 1)))
          ensureThreeParagraphsAux fuel (ps.take idx ++ [part1, part2] ++ ps.drop (idx + 1))
        | none => ps
      else ps
    else ps

/-- The paragraph-splitting loop with its (sufficient) fuel. -/
def ensureThreeParagraphs (ps : List String) : List String :=
  ensureThreeParagraphsAux 3 ps

/-- The paragraph-selection pipeline of `_create_detailed_fallback`
(lines 147-220): paragraphs by blank line, then by line, then grouped
sentences, then thirds, then the splitting loop. -/
def fallbackParagraphs (content : String) : List String :=
  let paragraphs := ((pySplit content "\n\n").map pyTrim).filter (· ≠ "")
  let paragraphs :=
    if paragraphs.length < 3 then ((pySplit content "\n").map pyTrim).filter (· ≠ "")
    else paragraphs
  let paragraphs :=
    if paragraphs.length < 3 then
      let sentences :=
        (((reSplitSentences content.data []).map pyTrim).filter (· ≠ "")).map (· ++ ".")
      groupSentences sentences
    else paragraphs
  let paragraphs := if paragraphs.length < 3 then splitIntoThirds content else paragraphs
  ensureThreeParagraphs paragraphs

/-- Bubble assembly of `_create_detailed_fallback` (lines 222-265): always three
bubbles, drawn from the first, middle and last thirds of the paragraph list. -/
def fallbackBubbles (title content : String) (paragraphs : List String) : List Msg :=
  let definition_sections := paragraphs.take (max 1 (paragraphs.length / 3))
  let definition_content := "💡 **Definition & Core Concepts**\n\n**" ++ title ++ ":**\n\n" ++
    pyJoin "\n\n" definition_sections
  let mid_start := max 1 (paragraphs.length / 3)
  let mid_end := max 2 (2 * paragraphs.length / 3)
  let technical_sections := (paragraphs.drop mid_start).take (mid_end - mid_start)
  let technical_content :=
    if technical_sections ≠ [] then "🔬 **How It Works**\n\n" ++ pyJoin "\n\n" technical_sections
    else "🔬 **How It Works**\n\n" ++
      (if paragraphs.length > 1 then paragraphs.getD 1 "" else content)
  let examples_start := max 2 (2 * paragraphs.length / 3)
  let examples_sections := paragraphs.drop examples_start
  let examples_content :=
    if examples_sections ≠ [] then
      "📚 **Examples & Applications**\n\n" ++ pyJoin "\n\n" examples_sections
    else
      "📚 **Examples & Applications**\n\n" ++
        (match paragraphs.getLast? with
         | some p => p
         | none => content)
  [{ assistant_message := definition_content, message_type := "concept_section",
     section_label := "Definition" },
   { assistant_message := technical_content, message_type := "concept_section",
     section_label := "Technical" },
   { assistant_message := examples_content, message_type := "concept_section",
     section_label := "Examples" }]

/-- `_create_detailed_fallback` (revision_agent lines 133-271). -/
def _create_detailed_fallback (content title : String) : List Msg :=
  let content := pyTrim content
  if content = "" ∨ pyLen content < 50 then _create_placeholder_bubbles title
  else fallbackBubbles title content (fallbackParagraphs content)

/-- `_parse_detailed_bubbles` (revision_agent lines 57-130): parsed section
bubbles with a fallback when fewer than three parse or any bubble is shorter
than 50 characters. -/
def _parse_detailed_bubbles (response title content : String) : List Msg :=
  let bubbles := parsedSectionBubbles response
  if bubbles.length < 3 ∨ bubbles.any (fun b => pyLen b.assistant_message < 50) then
    _create_detailed_fallback content title
  else bubbles

/-- `revision_agent.generate_structured_explanation` (lines 11-54) as a function
of the raw generation-service response. -/
def generate_structured_explanation (resp title content : String) : List Msg :=
  _parse_detailed_bubbles resp title content

/-- One concept chunk (`{"subtopic_number": ..., "subtopic_title": ..., "content": ...}`)
as stored in `concept_chunks`; sourced from the content repository. -/
structure Chunk where
  subtopic_number : Nat
  subtopic_title : String
  content : String
deriving Repr, DecidableEq

/-- The title of the chunk being presented
(`current.get("subtopic_title") or f"Concept {current.get('subtopic_number')}"`). -/
def chunkTitle (c : Chunk) : String :=
  if c.subtopic_title ≠ "" then c.subtopic_title else "Concept " ++ toString c.subtopic_number

/-- Rendering of an optional string inside a Python f-string: `None` prints as
the text `None`; used where the source formats `state.get("current_question_concept", "")`
whose stored value may be `None`. -/
def pyStrOfOpt : Option String → String
  | some t => t
  | none => "None"

/-- One record of `conversation_history`.  The timestamp is real time and is not
modelled; bookkeeping-only keys that some branches add (`question_asked`,
`question_number`, `progress`, `correct_answer`, `is_additional_question`,
`is_additional_correct`, `concept_mastered`) carry no control flow and are
elided. -/
structure ConversationTurn where
  turn : Nat
  user_message : Option String
  assistant_message : Option String
  stage : String
  concept_covered : Option String := none
  message_type : String := ""
  buttons : List SButton := []
  section_label : String := ""
deriving Repr, DecidableEq

/-- The `response` channel: either a single string or a list of bubbles. -/
inductive RespVal where
  | str (s : String)
  | msgs (l : List Msg)
deriving Repr, DecidableEq

/-- Python truthiness of a `response` value (`None`, `""` and `[]` are falsy). -/
def respTruthy : Option RespVal → Bool
  | none => false
  | some (.str s) => s ≠ ""
  | some (.msgs l) => l ≠ []

/-- The `OrchestratorState` record (orchestrator_agent lines 16-48).
`started_at` is real time and not modelled.  `Option` fields model keys whose
value may be `None` or absent. -/
structure SessionState where
  session_id : String
  student_id : String
  topic : String
  conversation_count : Nat
  is_complete : Bool
  max_conversations : Nat
  completion_threshold : Nat
  conversation_history : List ConversationTurn
  current_concept_correct_answers : Nat
  required_correct_answers : Nat
  current_concept_questions_asked : List String
  concept_chunks : List Chunk
  current_chunk_index : Nat
  has_used_learning_support : Bool
  expecting_button_action : Bool
  current_question_concept : Option String
  current_content : String
  expecting_answer : Bool
  current_expected_keywords : Option (List String)
  current_question : Option String
  concept_mastered : Bool
  concepts_learned : List String
  user_message : Option String
  intent : Option String
  response : Option RespVal
  message_format : Option String
  is_session_complete : Bool
  current_stage : String
  next_action : Option String
deriving Repr, DecidableEq

/-- One call-worth of generation-service output (spec section 2: the service is
a black box; every operation may return arbitrary text or fail).  Operations
whose post-processing the claims depend on are given as the raw response text
(`structuredResp`, `evalResp`, `relevanceResp`) and run through the embedded
parsers; the remaining operations are modelled by their returned value, with
`none` standing for a raised exception where the orchestrator catches one. -/
structure GenService where
  structuredResp : String := ""
  examplesOut : String := ""
  stepsOut : List String := []
  checkQOut : String := ""
  keywordsOut : Option (List String) := none
  evalResp : String := ""
  qaOut : String := ""
  relevanceResp : String := ""
  intentOut : String := ""
  summaryOut : Option String := none
deriving Repr, DecidableEq

/-- The completion summary with its deterministic fallback
(`conclusion_agent.summary` guarded by `try/except`, orchestrator lines
254-262, 400-409 and 1114-1122). -/
def summaryText (g : GenService) (learned : Nat) (total : Nat) : String :=
  match g.summaryOut with
  | some t => t
  | none => "Session completed. You mastered " ++ toString learned ++ " out of " ++
      toString total ++ " concepts."

/-- Keyword extraction with the orchestrator-side `except` fallback
(`title.split()[:3]`, orchestrator lines 448-456, 580-588 and 980-987). -/
def keywordsOrFallback (g : GenService) (title : String) : List String :=
  match g.keywordsOut with
  | some ks => ks
  | none => (pySplitWhitespace title).take 3

/-- Appended assistant turns for a list of bubbles (`turn = conversation_count + 1 + i`). -/
def bubbleTurns (s : SessionState) (stage : String) (concept : Option String)
    (messages : List Msg) : List ConversationTurn :=
  messages.enum.map (fun p =>
    { turn := s.conversation_count + 1 + p.1, user_message := none,
      assistant_message := some p.2.assistant_message, stage := stage,
      concept_covered := concept, message_type := p.2.message_type,
      buttons := p.2.buttons, section_label := p.2.section_label })

/-- `present_concept_node` (orchestrator lines 244-343). -/
def present_concept_node (g : GenService) (s : SessionState) : SessionState :=
  if s.current_stage = "explain" ∧ respTruthy s.response then s
  else
    let idx := s.current_chunk_index
    let chunks := s.concept_chunks
    if idx ≥ chunks.length then
      { s with is_complete := true,
               response := some (.str (summaryText g s.concepts_learned.length chunks.length)),
               is_session_complete := true,
               current_stage := "completed" }
    else
      let current := chunks.getD idx ⟨0, "", ""⟩
      let title := chunkTitle current
      let content := current.content
      let s := { s with current_concept_correct_answers := 0,
                        current_concept_questions_asked := [],
                        has_used_learning_support := false }
      let structured_content := generate_structured_explanation g.structuredResp title content
      let messages := structured_content ++
        [{ assistant_message := "What would you like to do next?", message_type := "buttons",
           buttons := [⟨"I need more examples", "more_examples"⟩,
                       ⟨"Can you re-explain?", "re_explain"⟩] }]
      let messages :=
        match s.response with
        | some (.msgs l) => (l.filter (fun m => m.message_type = "transition")) ++ messages
        | _ => messages
      { s with conversation_history := s.conversation_history ++ bubbleTurns s "explain" (some title) messages,
               conversation_count := s.conversation_count + messages.length,
               expecting_button_action := true,
               current_question_concept := some title,
               current_content := content,
               response := some (.msgs messages),
               message_format := some "multiple_bubbles",
               is_session_complete := false,
               current_stage := "explain" }

/-- `handle_input_node` (orchestrator lines 345-360). -/
def handle_input_node (s : SessionState) : SessionState :=
  { s with
      conversation_history := s.conversation_history ++
        [{ turn := s.conversation_count + 1, user_message := s.user_message,
           assistant_message := none, stage := "user_input",
           concept_covered := s.current_question_concept }],
      conversation_count := s.conversation_count + 1 }

/-- `detect_intent_node` (orchestrator lines 362-370): the classification comes
from the black-box service. -/
def detect_intent_node (g : GenService) (s : SessionState) : SessionState :=
  { s with intent := some g.intentOut }

/-- `handle_ack_node` (orchestrator lines 372-390). -/
def handle_ack_node (s : SessionState) : SessionState :=
  let nudge := "Great! When you" ++ apos ++
    "re ready, please choose one of the options above or ask me anything."
  { s with
      conversation_history := s.conversation_history ++
        [{ turn := s.conversation_count + 1, user_message := none,
           assistant_message := some nudge, stage := "ack" }],
      conversation_count := s.conversation_count + 1,
      response := some (.str nudge),
      is_session_complete := false,
      current_stage := "ack" }

/-- The person/celebrity keyword blocklist of `handle_qa_node` (line 709). -/
def person_keywords : List String :=
  ["who is", "who" ++ apos ++ "s", "what is his", "what is her", "celebrity", "actor",
   "actress", "star", "famous person"]

/-- The two base follow-up buttons, extended with `check_understanding` once
learning support has been used (orchestrator lines 742-747 and elsewhere). -/
def followUpButtons (has_used_support : Bool) : List SButton :=
  [⟨"I need more examples", "more_examples"⟩, ⟨"Can you re-explain?", "re_explain"⟩] ++
    (if has_used_support then
      [⟨"Let me check my understanding with some Q&A", "check_understanding"⟩]
     else [])

/-- `handle_qa_node` (orchestrator lines 695-781). -/
def handle_qa_node (g : GenService) (s : SessionState) : SessionState :=
  let current_concept := pyStrOfOpt s.current_question_concept
  -- current_content (lines 700-703) only feeds the black-box prompts and is
  -- therefore unused in the model
  let _current_content :=
    if s.current_chunk_index < s.concept_chunks.length then
      (s.concept_chunks.getD s.current_chunk_index ⟨0, "", ""⟩).content
    else ""
  let user_query := s.user_message.getD ""
  let user_query_lower := pyLower user_query
  let combined :=
    if person_keywords.any (fun k => pyIn k user_query_lower) then
      "⚠️ **That question is off-topic.**\n\nWe" ++ apos ++ "re currently learning about **" ++
        current_concept ++
        "**. Questions about people, celebrities, or trivia are not part of this lesson.\n\nPlease ask questions related to **" ++
        current_concept ++ "**, or use the buttons below to continue learning."
    else
      if check_question_relevance g.relevanceResp = "RELEVANT" then pyTrim g.qaOut
      else
        "⚠️ **That question is off-topic.**\n\nWe" ++ apos ++ "re currently learning about **" ++
          current_concept ++
          "**. Let" ++ apos ++ "s stay focused on this concept.\n\nPlease ask questions related to **" ++
          current_concept ++ "**, or use the buttons below to continue learning."
  let combined :=
    if pyTrim combined = "" then
      "⚠️ **Let" ++ apos ++ "s stay on topic.**\n\nWe" ++ apos ++ "re learning about **" ++
        current_concept ++ "**. Please ask questions related to this concept."
    else combined
  let messages : List Msg :=
    [{ assistant_message := combined, message_type := "qa_response" },
     { assistant_message := "What would you like to do next?", message_type := "buttons",
       buttons := followUpButtons s.has_used_learning_support }]
  { s with conversation_history := s.conversation_history ++ bubbleTurns s "qa" none messages,
           conversation_count := s.conversation_count + messages.length,
           expecting_button_action := true,
           response := some (.msgs messages),
           message_format := some "multiple_bubbles",
           is_session_complete := false,
           current_stage := "qa" }

/-- `handle_custom_node` (orchestrator lines 783-832): a direct redirect that
consults no generation-service operation at all. -/
def handle_custom_node (s : SessionState) : SessionState :=
  let current_concept := pyStrOfOpt s.current_question_concept
  let response := "⚠️ **Let" ++ apos ++ "s stay on topic!**\n\nWe" ++ apos ++
    "re learning about **" ++ current_concept ++ "** right now. Please focus on this concept."
  let messages : List Msg :=
    [{ assistant_message := response, message_type := "custom_response" },
     { assistant_message := "What would you like to do next?", message_type := "buttons",
       buttons := followUpButtons s.has_used_learning_support }]
  { s with
      conversation_history := s.conversation_history ++
        bubbleTurns s "custom_input" none messages,
      conversation_count := s.conversation_count + messages.length,
      expecting_button_action := true,
      response := some (.msgs messages),
      message_format := some "multiple_bubbles",
      is_session_complete := false,
      current_stage := "custom_input" }

/-- The mastery-options buttons (more questions / next concept). -/
def masteryButtons : List SButton :=
  [⟨"Could you provide a few more questions?", "more_questions"⟩,
   ⟨"Can you move to the next concept?", "next_concept"⟩]

/-- The retry buttons after a PARTIAL or WRONG verdict (all three options). -/
def retryButtons : List SButton :=
  [⟨"I need more examples", "more_examples"⟩, ⟨"Can you re-explain?", "re_explain"⟩,
   ⟨"Let me check my understanding with some Q&A", "check_understanding"⟩]

/-- The `next_action == "continue"` tail of `handle_button_node` (lines
650-693): one response bubble plus the follow-up buttons bubble. -/
def buttonContinueTail (s : SessionState) (title response_message : String) : SessionState :=
  let messages : List Msg :=
    [{ assistant_message := response_message, message_type := "response" },
     { assistant_message := "What would you like to do next?", message_type := "buttons",
       buttons := followUpButtons s.has_used_learning_support }]
  { s with
      conversation_history := s.conversation_history ++
        bubbleTurns s "button_response" (some title) messages,
      conversation_count := s.conversation_count + messages.length,
      response := some (.msgs messages),
      message_format := some "multiple_bubbles",
      is_session_complete := false,
      current_stage := "button_response",
      next_action := some "continue" }

/-- `handle_button_node` (orchestrator lines 392-693).  The action text is
matched by exact membership on the lowercased, stripped user text; the
mastered-only actions are consulted first and fall through to the ordinary
actions when neither matches. -/
def handle_button_node (g : GenService) (s : SessionState) : SessionState :=
  let idx := s.current_chunk_index
  let chunks := s.concept_chunks
  if idx ≥ chunks.length then
    { s with
        response := some (.str (summaryText g s.concepts_learned.length chunks.length)),
        is_session_complete := true,
        current_stage := "completed" }
  else
    let current := chunks.getD idx ⟨0, "", ""⟩
    let title := chunkTitle current
    let content := current.content
    let user_query := pyTrim (pyLower (s.user_message.getD ""))
    if s.concept_mastered ∧ (user_query = "more_questions" ∨ user_query = "more questions") then
      let s := { s with concept_mastered := false, expecting_button_action := false,
                        expecting_answer := true }
      let next_question := g.checkQOut
      let next_question :=
        if pyTrim next_question = "" then "What is the main idea of " ++ title ++ "?"
        else next_question
      let s := { s with current_concept_questions_asked :=
                   s.current_concept_questions_asked ++ [next_question] }
      let correct_answers := s.current_concept_correct_answers
      let response_message := "Great! Let" ++ apos ++
        "s continue with more questions to deepen your understanding.\n\n**Additional Question " ++
        toString (correct_answers + 1) ++ ":**\n" ++ next_question
      let expected_keywords := keywordsOrFallback g title
      { s with
          current_expected_keywords := some expected_keywords,
          current_question := some next_question,
          conversation_history := s.conversation_history ++
            [{ turn := s.conversation_count + 1, user_message := none,
               assistant_message := some response_message, stage := "additional_question",
               concept_covered := some title, message_type := "question" }],
          conversation_count := s.conversation_count + 1,
          response := some (.str response_message),
          message_format := some "single",
          is_session_complete := false,
          current_stage := "additional_question" }
    else if s.concept_mastered ∧ (user_query = "next_concept" ∨ user_query = "next concept") then
      let s := { s with concept_mastered := false,
                        current_chunk_index := s.current_chunk_index + 1,
                        expecting_answer := false, expecting_button_action := false,
                        current_question_concept := none, current_content := "",
                        current_concept_correct_answers := 0,
                        current_concept_questions_asked := [] }
      let transition_message := "Perfect! Moving to the next concept..."
      { s with
          response := some (.msgs [{ assistant_message := transition_message,
                                     message_type := "transition" }]),
          message_format := some "multiple_bubbles",
          conversation_history := s.conversation_history ++
            [{ turn := s.conversation_count + 1, user_message := none,
               assistant_message := some transition_message, stage := "concept_transition",
               message_type := "transition" }],
          conversation_count := s.conversation_count + 1,
          next_action := some "present_concept",
          is_session_complete := false,
          current_stage := "concept_transition" }
    else if user_query = "more_examples" ∨ user_query = "more examples" then
      let response_message := g.examplesOut
      let response_message :=
        if pyTrim response_message = "" then "Fallback example: " ++ pySlice content 100
        else response_message
      buttonContinueTail { s with has_used_learning_support := true } title response_message
    else if user_query = "re_explain" ∨ user_query = "re-explain" then
      let steps := g.stepsOut
      let steps :=
        if steps.length ≠ 4 then
          (List.range 4).map (fun i => "Fallback step " ++ toString (i + 1) ++ ": " ++
            pySlice content 50)
        else steps
      let response_message := "Let me explain this concept again in a different way:\n\n" ++
        pyJoin "\n" steps
      buttonContinueTail { s with has_used_learning_support := true } title response_message
    else if user_query = "check_understanding" ∨ user_query = "check my understanding" then
      let check_q := g.checkQOut
      let check_q :=
        if pyTrim check_q = "" then "What is the main idea of " ++ title ++ "?" else check_q
      let s := { s with current_concept_questions_asked :=
                   s.current_concept_questions_asked ++ [check_q] }
      let correct_so_far := s.current_concept_correct_answers
      let required_total := s.required_correct_answers
      let response_message := "Great! Let" ++ apos ++
        "s test your understanding. You need to answer " ++ toString required_total ++
        " questions correctly to master this concept.\n\n**Progress: " ++
        toString correct_so_far ++ "/" ++ toString required_total ++
        " correct answers**\n\n**Question " ++ toString (correct_so_far + 1) ++ ":**\n" ++ check_q
      let expected_keywords := keywordsOrFallback g title
      { s with
          expecting_answer := true,
          current_expected_keywords := some expected_keywords,
          expecting_button_action := false,
          current_question := some check_q,
          conversation_history := s.conversation_history ++
            [{ turn := s.conversation_count + 1, user_message := none,
               assistant_message := some response_message, stage := "quiz_question",
               concept_covered := some title, message_type := "question" }],
          conversation_count := s.conversation_count + 1,
          response := some (.str response_message),
          message_format := some "single",
          is_session_complete := false,
          current_stage := "quiz_question" }
    else
      let relevance := check_question_relevance g.relevanceResp
      let response_message :=
        if relevance = "RELEVANT" then g.qaOut
        else "⚠️ **That" ++ apos ++ "s off-topic.**\n\nRight now we" ++ apos ++
          "re focusing on **" ++ title ++
          "**. Please ask questions about this concept or use the buttons below to continue."
      let response_message :=
        if pyTrim response_message = "" then
          "⚠️ **Let" ++ apos ++ "s stay focused on " ++ title ++ ".**"
        else response_message
      buttonContinueTail s title response_message

/-- Assistant turns of the two-bubble evaluation responses: the user answer is
recorded on the first bubble only. -/
def evalPairTurns (s : SessionState) (stage : String) (user_query : String)
    (messages : List Msg) : List ConversationTurn :=
  messages.enum.map (fun p =>
    { turn := s.conversation_count + 1 + p.1,
      user_message := if p.1 = 0 then some user_query else none,
      assistant_message := some p.2.assistant_message, stage := stage,
      message_type := p.2.message_type, buttons := p.2.buttons })

/-- `evaluate_answer_node` (orchestrator lines 834-1110).  The `get` defaults on
`justification` and `correction` in the source are dead because
`evaluate_answer` always returns all three keys. -/
def evaluate_answer_node (g : GenService) (s : SessionState) : SessionState :=
  let title := pyStrOfOpt s.current_question_concept
  let user_query := s.user_message.getD ""
  let eval_result := evaluate_answer g.evalResp
  let verdict := eval_result.verdict
  let correct_answers := s.current_concept_correct_answers
  let required_total := s.required_correct_answers
  if verdict = "CORRECT" then
    if s.concept_mastered ∧ correct_answers ≥ required_total then
      let assistant_feedback := "✅ **CORRECT!**\n\n🎉 Excellent! You continue to demonstrate strong understanding of this concept.\n\n**What you got right:**\n" ++
        eval_result.justification
      let messages : List Msg :=
        [{ assistant_message := assistant_feedback, message_type := "additional_correct" },
         { assistant_message := "What would you like to do next?",
           message_type := "mastery_buttons", buttons := masteryButtons }]
      { s with
          conversation_history := s.conversation_history ++
            evalPairTurns s "additional_correct" user_query messages,
          conversation_count := s.conversation_count + messages.length,
          expecting_answer := false,
          expecting_button_action := true,
          response := some (.msgs messages),
          message_format := some "multiple_bubbles",
          is_session_complete := false,
          current_stage := "additional_correct" }
    else
      let correct_answers := correct_answers + 1
      let s := { s with current_concept_correct_answers := correct_answers }
      let assistant_feedback := "✅ **CORRECT!**\n\n🎉 Great job! Your answer is absolutely right.\n\n**What you understood well:**\n" ++
        eval_result.justification ++ "\n\n**Progress: " ++ toString correct_answers ++ "/" ++
        toString required_total ++ " correct answers**"
      if correct_answers ≥ required_total then
        let s := { s with concepts_learned := s.concepts_learned ++ [title],
                          expecting_answer := false,
                          expecting_button_action := true,
                          concept_mastered := true }
        let assistant_feedback := assistant_feedback ++
          "\n\n🏆 **Concept Mastered!**\nYou" ++ apos ++ "ve successfully answered " ++
          toString required_total ++ " questions correctly. You" ++ apos ++
          "ve shown excellent understanding of **" ++ title ++ "**!"
        let messages : List Msg :=
          [{ assistant_message := assistant_feedback, message_type := "mastery_feedback" },
           { assistant_message := "What would you like to do next?",
             message_type := "mastery_buttons", buttons := masteryButtons }]
        { s with
            conversation_history := s.conversation_history ++
              evalPairTurns s "concept_mastered" user_query messages,
            conversation_count := s.conversation_count + messages.length,
            response := some (.msgs messages),
            message_format := some "multiple_bubbles",
            is_session_complete := false,
            current_stage := "concept_mastered" }
      else
        let next_question := g.checkQOut
        let next_question :=
          if pyTrim next_question = "" then "What is the main idea of " ++ title ++ "?"
          else next_question
        let s := { s with current_concept_questions_asked :=
                     s.current_concept_questions_asked ++ [next_question] }
        let combined_message := assistant_feedback ++ "\nLet" ++ apos ++
          "s try another question:\n\n**Question " ++ toString (correct_answers + 1) ++
          ":**\n" ++ next_question
        let expected_keywords := keywordsOrFallback g title
        { s with
            current_expected_keywords := some expected_keywords,
            current_question := some next_question,
            conversation_history := s.conversation_history ++
              [{ turn := s.conversation_count + 1, user_message := some user_query,
                 assistant_message := some combined_message,
                 stage := "correct_answer_next_question" }],
            conversation_count := s.conversation_count + 1,
            response := some (.str combined_message),
            message_format := some "single",
            is_session_complete := false,
            current_stage := "next_question" }
  else if verdict = "PARTIAL" then
    let assistant_feedback := "🟡 **PARTIALLY CORRECT**\n\n👍 Good effort! You" ++ apos ++
      "re on the right track, but there are some missing elements.\n\n**What you got right:**\n" ++
      eval_result.justification ++ "\n\n**What to add:**\n" ++ eval_result.correction
    let s := { s with expecting_answer := false, expecting_button_action := true }
    let messages : List Msg :=
      [{ assistant_message := assistant_feedback, message_type := "feedback" },
       { assistant_message := "Let" ++ apos ++
           "s strengthen your understanding. What would you like to do?",
         message_type := "buttons", buttons := retryButtons }]
    { s with
        conversation_history := s.conversation_history ++
          evalPairTurns s "partial_answer_feedback" user_query messages,
        conversation_count := s.conversation_count + messages.length,
        response := some (.msgs messages),
        message_format := some "multiple_bubbles",
        is_session_complete := false,
        current_stage := "partial_answer_feedback" }
  else
    let assistant_feedback := "❌ **INCORRECT**\n\n💭 Not quite right, but that" ++ apos ++
      "s okay - learning involves making mistakes!\n\n**What needs correction:**\n" ++
      eval_result.correction
    let s := { s with expecting_answer := false, expecting_button_action := true }
    let messages : List Msg :=
      [{ assistant_message := assistant_feedback, message_type := "feedback" },
       { assistant_message := "Let" ++ apos ++
           "s try a different approach. What would you like to do?",
         message_type := "buttons", buttons := retryButtons }]
    { s with
        conversation_history := s.conversation_history ++
          evalPairTurns s "wrong_answer_feedback" user_query messages,
        conversation_count := s.conversation_count + messages.length,
        response := some (.msgs messages),
        message_format := some "multiple_bubbles",
        is_session_complete := false,
        current_stage := "wrong_answer_feedback" }

/-- `conclusion_node` (orchestrator lines 1112-1128). -/
def conclusion_node (g : GenService) (s : SessionState) : SessionState :=
  { s with
      response := some (.str (summaryText g s.concepts_learned.length s.concept_chunks.length)),
      is_session_complete := true,
      current_stage := "completed" }

/-- One pass through the compiled graph (`_build_graph` plus the routing
functions `entry_route`, `route_after_input`, `route_after_detect`,
`route_after_button`, orchestrator lines 63-149). -/
def invokeGraph (g : GenService) (s : SessionState) : SessionState :=
  if s.user_message = none then present_concept_node g s
  else
    let s := handle_input_node s
    if s.is_complete then conclusion_node g s
    else if s.expecting_button_action then
      let s := handle_button_node g s
      if s.next_action = some "present_concept" then present_concept_node g s else s
    else if s.expecting_answer then evaluate_answer_node g s
    else
      let s := detect_intent_node g s
      if s.intent = some "ACKNOWLEDGEMENT" then handle_ack_node s
      else if s.intent = some "ASKING_QUESTION" then handle_qa_node g s
      else handle_custom_node s

/-- Modelled from the spec: `MongoDBClient.save_revision_session` and
`get_revision_session` are not under `src/`.  Per spec section 3 the stored
Session record holds the listed session fields, and `userMessage` is a
"transient per-call field ... not persisted across calls"; the graph-internal
routing channels (`user_message`, `intent`, `next_action`), which are not part
of the spec Session record, are accordingly reset on the persisted record. -/
def persistSession (s : SessionState) : SessionState :=
  { s with user_message := none, intent := none, next_action := none }

/-- Response payload dict of `handle_user_input` / `start_revision_session`;
`none` models an absent key. -/
structure HandleResult where
  response : Option RespVal
  message_format : Option String
  is_session_complete : Bool
  conversation_count : Nat
  current_stage : Option String
  current_concept : Option String := none
deriving Repr, DecidableEq

/-- `handle_user_input` (orchestrator lines 223-242).  The session store
(modelled from the spec, see `persistSession`) holds at most the one record for
the queried id; the function returns the response payload together with the
store content after the call. -/
def handle_user_input (store : Option SessionState) (g : GenService) (user_query : String) :
    HandleResult × Option SessionState :=
  match store with
  | none =>
    ({ response := some (.str "Session not found. Start a new revision session."),
       message_format := none, is_session_complete := true,
       conversation_count := 0, current_stage := none }, none)
  | some doc =>
    let state := { doc with user_message := some user_query }
    let out := invokeGraph g state
    ({ response := out.response, message_format := out.message_format,
       is_session_complete := out.is_session_complete,
       conversation_count := out.conversation_count,
       current_stage := some out.current_stage },
     some (persistSession out))

/-- The fresh session document created by `start_revision_session`
(orchestrator lines 170-197). -/
def freshSessionDoc (topic student_id session_id : String) : SessionState :=
  { session_id := session_id, student_id := student_id, topic := topic,
    conversation_count := 0, is_complete := false, max_conversations := 999,
    completion_threshold := 0, conversation_history := [],
    current_concept_correct_answers := 0, required_correct_answers := 2,
    current_concept_questions_asked := [], concept_chunks := [],
    current_chunk_index := 0, has_used_learning_support := false,
    expecting_button_action := false, current_question_concept := none,
    current_content := "", expecting_answer := false,
    current_expected_keywords := none, current_question := none,
    concept_mastered := false, concepts_learned := [], user_message := none,
    intent := none, response := none, message_format := none,
    is_session_complete := false, current_stage := "", next_action := none }

/-- `start_revision_session` (orchestrator lines 164-221).  The content
repository (spec section 6, `MongoDBClient.get_topic_subtopics` /
`get_topic_content`, not under `src/`) is modelled by the two chunk lists it
returns; the source uses the fallback lookup exactly when the first returns no
subtopics. -/
def start_revision_session (store : Option SessionState)
    (repoSubtopics repoFallbackChunks : List Chunk) (g : GenService)
    (topic student_id session_id : String) : HandleResult × Option SessionState :=
  let go : SessionState → HandleResult × Option SessionState := fun doc =>
    let subtopics := if repoSubtopics = [] then repoFallbackChunks else repoSubtopics
    let doc := { doc with concept_chunks := subtopics, current_chunk_index := 0 }
    let out := invokeGraph g doc
    ({ response := out.response, message_format := out.message_format,
       is_session_complete := out.is_session_complete,
       conversation_count := out.conversation_count,
       current_stage := some out.current_stage,
       current_concept := out.current_question_concept },
     some (persistSession out))
  match store with
  | some doc =>
    if doc.is_complete then
      ({ response := some (.str "Session already completed. Start a new session."),
         message_format := none, is_session_complete := true,
         conversation_count := 0, current_stage := none }, store)
    else go doc
  | none => go (freshSessionDoc topic student_id session_id)

/-- The routing-flag invariant of spec section 8: a session never expects a
free-text answer and a button action at the same time. -/
def flagsOk (s : SessionState) : Prop :=
  s.expecting_answer = false ∨ s.expecting_button_action = false

theorem handle_input_expecting_answer (s : SessionState) :
    (handle_input_node s).expecting_answer = s.expecting_answer := rfl

theorem handle_input_expecting_button (s : SessionState) :
    (handle_input_node s).expecting_button_action = s.expecting_button_action := rfl

theorem handle_input_is_complete (s : SessionState) :
    (handle_input_node s).is_complete = s.is_complete := rfl

theorem handle_input_next_action (s : SessionState) :
    (handle_input_node s).next_action = s.next_action := rfl

theorem present_concept_expecting_answer (g : GenService) (s : SessionState) :
    (present_concept_node g s).expecting_answer = s.expecting_answer := by
  unfold present_concept_node
  split
  · rfl
  · simp only []
    split <;> rfl

theorem conclusion_flags (g : GenService) (s : SessionState) :
    (conclusion_node g s).expecting_answer = s.expecting_answer ∧
    (conclusion_node g s).expecting_button_action = s.expecting_button_action :=
  ⟨rfl, rfl⟩

theorem handle_ack_flags (s : SessionState) :
    (handle_ack_node s).expecting_answer = s.expecting_answer ∧
    (handle_ack_node s).expecting_button_action = s.expecting_button_action :=
  ⟨rfl, rfl⟩

theorem handle_qa_flags (g : GenService) (s : SessionState) :
    (handle_qa_node g s).expecting_answer = s.expecting_answer ∧
    (handle_qa_node g s).expecting_button_action = true :=
  ⟨rfl, rfl⟩

theorem handle_custom_flags (s : SessionState) :
    (handle_custom_node s).expecting_answer = s.expecting_answer ∧
    (handle_custom_node s).expecting_button_action = true :=
  ⟨rfl, rfl⟩

theorem evaluate_answer_node_flagsOk (g : GenService) (s : SessionState)
    (hB : s.expecting_button_action = false) : flagsOk (evaluate_answer_node g s) := by
  unfold evaluate_answer_node flagsOk
  simp only []
  split
  · split
    · exact Or.inl rfl
    · split
      · exact Or.inl rfl
      · exact Or.inr hB
  · split
    · exact Or.inl rfl
    · exact Or.inl rfl

theorem handle_button_node_flags (g : GenService) (s : SessionState)
    (hA : s.expecting_answer = false) (hN : s.next_action = none) :
    ∀ t, handle_button_node g s = t →
      (t.expecting_answer = false ∨ t.expecting_button_action = false) ∧
      (t.next_action = some "present_concept" → t.expecting_answer = false) := by
  intro t ht
  unfold handle_button_node at ht
  simp only [] at ht
  split at ht
  · rw [← ht]
    refine ⟨Or.inl hA, fun h => ?_⟩
    rw [hN] at h
    exact Option.noConfusion h
  · split at ht
    · rw [← ht]
      refine ⟨Or.inr rfl, fun h => ?_⟩
      rw [hN] at h
      exact Option.noConfusion h
    · split at ht
      · rw [← ht]
        exact ⟨Or.inl rfl, fun _ => rfl⟩
      · split at ht
        · rw [← ht]
          simp only [buttonContinueTail]
          exact ⟨Or.inl hA, fun h => absurd (Option.some.inj h) (by decide)⟩
        · split at ht
          · rw [← ht]
            simp only [buttonContinueTail]
            exact ⟨Or.inl hA, fun h => absurd (Option.some.inj h) (by decide)⟩
          · split at ht
            · rw [← ht]
              refine ⟨Or.inr rfl, fun h => ?_⟩
              rw [hN] at h
              exact Option.noConfusion h
            · rw [← ht]
              simp only [buttonContinueTail]
              exact ⟨Or.inl hA, fun h => absurd (Option.some.inj h) (by decide)⟩

theorem present_concept_B_cases (g : GenService) (s : SessionState) :
    (present_concept_node g s).expecting_button_action = true ∨
    (present_concept_node g s).expecting_button_action = s.expecting_button_action := by
  unfold present_concept_node
  split
  · exact Or.inr rfl
  · simp only []
    split
    · exact Or.inr rfl
    · exact Or.inl rfl

theorem invokeGraph_flagsOk (g : GenService) (q : String) (s : SessionState)
    (hF : flagsOk s) (hN : s.next_action = none) :
    flagsOk (invokeGraph g { s with user_message := some q }) := by
  unfold invokeGraph
  simp only []
  split
  · rename_i hx
    exact absurd hx (fun hx => Option.noConfusion hx)
  · split
    · exact hF
    · split
      · rename_i hBtn
        have hA : s.expecting_answer = false := by
          rcases hF with h | h
          · exact h
          · have hBtn2 : s.expecting_button_action = true := hBtn
            rw [h] at hBtn2
            exact absurd hBtn2 (by decide)
        have hbf := handle_button_node_flags g
          (handle_input_node { s with user_message := some q }) hA hN _ rfl
        split
        · rename_i hp
          exact Or.inl ((present_concept_expecting_answer g _).trans (hbf.2 hp))
        · exact hbf.1
      · split
        · rename_i hAns
          have hB : s.expecting_button_action = false := by
            rcases hF with h | h
            · have hAns2 : s.expecting_answer = true := hAns
              rw [h] at hAns2
              exact absurd hAns2 (by decide)
            · exact h
          exact evaluate_answer_node_flagsOk g _ hB
        · rename_i hAns
          have hA : s.expecting_answer = false := by
            cases hsa : s.expecting_answer with
            | false => rfl
            | true =>
              exact absurd (show (handle_input_node
                { s with user_message := some q }).expecting_answer = true from hsa) hAns
          split
          · exact Or.inl hA
          · split
            · exact Or.inl hA
            · exact Or.inl hA

/-- The session states reachable by one `start` call on an empty store followed
by any sequence of `handle` calls, with arbitrary generation-service outputs on
every call (the states as held by the session store between calls). -/
inductive ReachableSession : SessionState → Prop
  | start (repo fb : List Chunk) (g : GenService) (topic stid sid : String) (s : SessionState)
      (h : (start_revision_session none repo fb g topic stid sid).2 = some s) :
      ReachableSession s
  | step (g : GenService) (q : String) (s t : SessionState)
      (hs : ReachableSession s)
      (h : (handle_user_input (some s) g q).2 = some t) :
      ReachableSession t

theorem reachable_inv (s : SessionState) (h : ReachableSession s) :
    flagsOk s ∧ s.next_action = none := by
  induction h with
  | start repo fb g topic stid sid s h =>
    have hs : s = persistSession (invokeGraph g
        { freshSessionDoc topic stid sid with
            concept_chunks := if repo = [] then fb else repo, current_chunk_index := 0 }) := by
      unfold start_revision_session at h
      simp only [] at h
      exact (Option.some.inj h).symm
    subst hs
    refine ⟨Or.inl ?_, rfl⟩
    show (present_concept_node g
      { freshSessionDoc topic stid sid with
          concept_chunks := if repo = [] then fb else repo,
          current_chunk_index := 0 }).expecting_answer = false
    rw [present_concept_expecting_answer]
    rfl
  | step g q s t _ h ih =>
    have ht : t = persistSession (invokeGraph g { s with user_message := some q }) := by
      unfold handle_user_input at h
      simp only [] at h
      exact (Option.some.inj h).symm
    subst ht
    exact ⟨invokeGraph_flagsOk g q s ih.1 ih.2, rfl⟩

/-- C3: for every session state reachable from `start` followed by any sequence
of `handle` calls, `expecting_answer` and `expecting_button_action` are never
both true. -/
theorem c3_never_both_expecting (s : SessionState) (h : ReachableSession s) :
    ¬ (s.expecting_answer = true ∧ s.expecting_button_action = true) := by
  intro hc
  rcases (reachable_inv s h).1 with h1 | h1
  · rw [hc.1] at h1
    exact absurd h1 (by decide)
  · rw [hc.2] at h1
    exact absurd h1 (by decide)

/-- A concrete concept chunk used by witnesses. -/
def chunkForces : Chunk :=
  ⟨1, "Forces",
    "A force is a push or a pull acting upon an object as a result of its interaction with another object."⟩

/-- The stored session right after a concrete fresh `start` call. -/
def s0AfterStart : SessionState :=
  ((start_revision_session none [chunkForces] [] {} "Forces" "s1" "sess1").2).getD
    (freshSessionDoc "" "" "")

theorem c3_never_both_expecting_witness :
    ¬ (s0AfterStart.expecting_answer = true ∧ s0AfterStart.expecting_button_action = true) :=
  c3_never_both_expecting s0AfterStart
    (ReachableSession.start [chunkForces] [] {} "Forces" "s1" "sess1" s0AfterStart rfl)

/-- C8: `handle` on a session id for which the store has no record returns the
terminal session-not-found response without creating or saving any record (the
function is total, so no exception reaches the caller). -/
theorem c8_session_not_found (g : GenService) (q : String) :
    (handle_user_input none g q).1.is_session_complete = true ∧
    (handle_user_input none g q).1.response =
      some (.str "Session not found. Start a new revision session.") ∧
    (handle_user_input none g q).1.conversation_count = 0 ∧
    (handle_user_input none g q).2 = none :=
  ⟨rfl, rfl, rfl, rfl⟩

/-- C9: `start` on a stored session with `is_complete = true` returns the
completion response with `is_session_complete = true` and leaves the stored
record (in particular its conversation-history length) unchanged. -/
theorem c9_start_on_complete_session (st : SessionState) (repo fb : List Chunk)
    (g : GenService) (topic stid sid : String) (h : st.is_complete = true) :
    (start_revision_session (some st) repo fb g topic stid sid).1.is_session_complete = true ∧
    (start_revision_session (some st) repo fb g topic stid sid).1.response =
      some (.str "Session already completed. Start a new session.") ∧
    (start_revision_session (some st) repo fb g topic stid sid).2 = some st ∧
    (start_revision_session (some st) repo fb g topic stid sid).2.map
      (fun t => t.conversation_history.length) = some st.conversation_history.length := by
  unfold start_revision_session
  simp only []
  rw [if_pos h]
  exact ⟨rfl, rfl, rfl, rfl⟩

/-- A concrete completed session record. -/
def sCompletedW : SessionState := { freshSessionDoc "Forces" "s1" "sess1" with is_complete := true }

theorem c9_start_on_complete_session_witness :
    sCompletedW.is_complete = true ∧
    (start_revision_session (some sCompletedW) [] [] {} "Forces" "s1" "sess1").2 = some sCompletedW :=
  ⟨rfl, (c9_start_on_complete_session sCompletedW [] [] {} "Forces" "s1" "sess1" rfl).2.2.1⟩

/-- C10: `check_question_relevance` answers IRRELEVANT exactly when the
uppercased (stripped) service output does not contain the substring RELEVANT;
in particular the exact classifier output IRRELEVANT is classified RELEVANT. -/
theorem c10_relevance_substring (resp : String) :
    (pyIn "RELEVANT" (pyUpper (pyTrim resp)) = false →
      check_question_relevance resp = "IRRELEVANT") ∧
    (pyIn "RELEVANT" (pyUpper (pyTrim resp)) = true →
      check_question_relevance resp = "RELEVANT") ∧
    check_question_relevance "IRRELEVANT" = "RELEVANT" := by
  unfold check_question_relevance
  simp only []
  refine ⟨fun h => ?_, fun h => ?_, by decide⟩
  · rw [h]
    rfl
  · rw [h]
    rfl

theorem c10_relevance_substring_witness :
    pyIn "RELEVANT" (pyUpper (pyTrim "IRRELEVANT")) = true ∧
    check_question_relevance "IRRELEVANT" = "RELEVANT" :=
  ⟨by decide, (c10_relevance_substring "IRRELEVANT").2.1 (by decide)⟩

/-- The last `VERDICT:` line of a response, as the uppercased text after its
colon. -/
def vLine (l : String) : Option String :=
  let t := pyTrim l
  if pyStartsWith (pyUpper t) "VERDICT:" then some (pyUpper (pyTrim (pyAfterColon t)))
  else none

/-- Restatement of the verdict rule in the words of the amended claim: the
verdict is the uppercased text after the colon of the last VERDICT: line of the
output, and WRONG when no such line exists. -/
def verdictSpec (resp : String) : String :=
  (((pySplit resp "\n").filterMap vLine).getLast?).getD "WRONG"

theorem evalLineStep_verdict (a : String × String × String) (l : String) :
    (evalLineStep a l).1 = (vLine l).getD a.1 := by
  unfold evalLineStep vLine
  simp only []
  split
  · rfl
  · split
    · rfl
    · split
      · rfl
      · rfl

theorem getLastD_cons (v d : String) (m : List String) :
    ((v :: m).getLast?).getD d = (m.getLast?).getD v := by
  induction m generalizing v d with
  | nil => rfl
  | cons w t ih =>
    rw [List.getLast?_cons_cons]
    exact (ih w d).trans (ih w v).symm

theorem foldl_evalLineStep_verdict (lines : List String) (a : String × String × String) :
    (lines.foldl evalLineStep a).1 = ((lines.filterMap vLine).getLast?).getD a.1 := by
  induction lines generalizing a with
  | nil => rfl
  | cons l ls ih =>
    rw [List.foldl_cons, ih]
    cases hv : vLine l with
    | none =>
      rw [List.filterMap_cons_none hv, evalLineStep_verdict, hv]
      rfl
    | some v =>
      rw [List.filterMap_cons_some hv, evalLineStep_verdict, hv]
      exact (getLastD_cons v a.1 _).symm

/-- C7 (amended): the verdict of `evaluate_answer` is the uppercased text after
the colon of the last VERDICT: line of the service output (an arbitrary string,
not limited to CORRECT/PARTIAL/WRONG), and defaults to WRONG when the output
has no VERDICT: line. -/
theorem c7_verdict_is_last_verdict_line (resp : String) :
    (evaluate_answer resp).verdict = verdictSpec resp ∧
    ((pySplit resp "\n").filterMap vLine = [] → (evaluate_answer resp).verdict = "WRONG") := by
  have h1 : (evaluate_answer resp).verdict = verdictSpec resp := by
    unfold evaluate_answer verdictSpec
    simp only []
    exact foldl_evalLineStep_verdict _ _
  refine ⟨h1, fun h => ?_⟩
  rw [h1]
  unfold verdictSpec
  rw [h]
  rfl

theorem c7_verdict_witness :
    (pySplit "Good answer overall" "\n").filterMap vLine = [] ∧
    (evaluate_answer "Good answer overall").verdict = "WRONG" :=
  ⟨by decide, (c7_verdict_is_last_verdict_line "Good answer overall").2 (by decide)⟩

/-- C7 counterexample: on the service output `VERDICT: MAYBE` the verdict field
is MAYBE, which is none of CORRECT, PARTIAL, WRONG. -/
theorem c7_counterexample :
    (evaluate_answer "VERDICT: MAYBE").verdict = "MAYBE" ∧
    ¬ ((evaluate_answer "VERDICT: MAYBE").verdict = "CORRECT" ∨
       (evaluate_answer "VERDICT: MAYBE").verdict = "PARTIAL" ∨
       (evaluate_answer "VERDICT: MAYBE").verdict = "WRONG") :=
  ⟨by decide, by decide⟩

/-- A concrete session in free-conversation state (no routing flag set). -/
def sDetectW : SessionState :=
  { freshSessionDoc "Forces" "s1" "sess1" with
      concept_chunks := [chunkForces],
      current_question_concept := some "Forces" }

/-- A service whose relevance classifier answers RELEVANT, whose QA operation
has a real answer, and whose intent classification routes to HANDLE_CUSTOM. -/
def gRelevantW : GenService :=
  { relevanceResp := "RELEVANT", qaOut := "REAL ANSWER", intentOut := "OTHER" }

/-- C4 counterexample: even though the relevance classification of this input
is RELEVANT and a QA answer is available, the HANDLE_CUSTOM node answers with
the off-topic redirect, never with the answer. -/
theorem c4_counterexample :
    (match (handle_user_input (some sDetectW) gRelevantW "tell me something").1.response with
     | some (.msgs (m :: _)) => (m.assistant_message, m.message_type)
     | _ => ("", "")) =
      ("⚠️ **Let" ++ apos ++ "s stay on topic!**\n\nWe" ++ apos ++
        "re learning about **Forces** right now. Please focus on this concept.",
       "custom_response") ∧
    check_question_relevance gRelevantW.relevanceResp = "RELEVANT" ∧
    gRelevantW.qaOut = "REAL ANSWER" :=
  ⟨by decide, by decide, rfl⟩

/-- C4 (amended): `handle_custom_node` applies no relevance gate at all: it
takes no generation-service input and, for every session state, returns exactly
the stay-on-topic redirect naming the current concept plus the follow-up
buttons bubble. -/
theorem c4_custom_always_redirects (s : SessionState) :
    (handle_custom_node s).response = some (.msgs
      [{ assistant_message := "⚠️ **Let" ++ apos ++ "s stay on topic!**\n\nWe" ++ apos ++
           "re learning about **" ++ pyStrOfOpt s.current_question_concept ++
           "** right now. Please focus on this concept.",
         message_type := "custom_response" },
       { assistant_message := "What would you like to do next?", message_type := "buttons",
         buttons := followUpButtons s.has_used_learning_support }]) ∧
    (handle_custom_node s).current_stage = "custom_input" ∧
    (handle_custom_node s).expecting_button_action = true :=
  ⟨rfl, rfl, rfl⟩

theorem create_detailed_fallback_length (content title : String) :
    (_create_detailed_fallback content title).length = 3 := by
  unfold _create_detailed_fallback
  simp only []
  split
  · rfl
  · rfl

theorem create_detailed_fallback_types (content title : String) :
    ∀ b ∈ _create_detailed_fallback content title, b.message_type = "concept_section" := by
  unfold _create_detailed_fallback
  simp only []
  split
  · intro b hb
    unfold _create_placeholder_bubbles at hb
    simp only [List.mem_cons, List.not_mem_nil, or_false] at hb
    rcases hb with rfl | rfl | rfl <;> rfl
  · intro b hb
    unfold fallbackBubbles at hb
    simp only [List.mem_cons, List.not_mem_nil, or_false] at hb
    rcases hb with rfl | rfl | rfl <;> rfl

theorem optBubble_length_le (v : Option String) (lab : String) :
    (optBubble v lab).length ≤ 1 := by
  cases v with
  | none => simp [optBubble]
  | some t =>
    simp only [optBubble]
    split
    · simp
    · simp

theorem optBubble_types (v : Option String) (lab : String) :
    ∀ b ∈ optBubble v lab, b.message_type = "concept_section" := by
  cases v with
  | none => simp [optBubble]
  | some t =>
    simp only [optBubble]
    split
    · intro b hb
      simp only [List.mem_cons, List.not_mem_nil, or_false] at hb
      subst hb
      rfl
    · simp

theorem parsedSectionBubbles_length_le (resp : String) :
    (parsedSectionBubbles resp).length ≤ 3 := by
  unfold parsedSectionBubbles
  simp only [List.length_append]
  have h1 := optBubble_length_le
    (parseSectionsLoop (pySplit resp "\n") none [] {}).definition "Definition"
  have h2 := optBubble_length_le
    (parseSectionsLoop (pySplit resp "\n") none [] {}).technical "Technical"
  have h3 := optBubble_length_le
    (parseSectionsLoop (pySplit resp "\n") none [] {}).examples "Examples"
  omega

theorem gse_length (resp title content : String) :
    (generate_structured_explanation resp title content).length = 3 := by
  unfold generate_structured_explanation _parse_detailed_bubbles
  simp only []
  split
  · exact create_detailed_fallback_length content title
  · rename_i hcond
    push_neg at hcond
    have hle := parsedSectionBubbles_length_le resp
    omega

theorem gse_types (resp title content : String) :
    ∀ b ∈ generate_structured_explanation resp title content,
      b.message_type = "concept_section" := by
  unfold generate_structured_explanation _parse_detailed_bubbles
  simp only []
  split
  · exact create_detailed_fallback_types content title
  · intro b hb
    unfold parsedSectionBubbles at hb
    simp only [List.mem_append] at hb
    rcases hb with (hb | hb) | hb
    exacts [optBubble_types _ _ b hb, optBubble_types _ _ b hb, optBubble_types _ _ b hb]

/-- C5 (amended): when the structured-explanation output is malformed (fewer
than three parsed sections, or a parsed bubble shorter than 50 characters), the
explanation falls back to `_create_detailed_fallback` on the stored concept
content: three content-derived bubbles (placeholders when the stored content is
shorter than 50 characters) — never a single combined bubble. -/
theorem c5_malformed_falls_back_to_three (resp title content : String)
    (h : (parsedSectionBubbles resp).length < 3 ∨
         (parsedSectionBubbles resp).any (fun b => pyLen b.assistant_message < 50) = true) :
    generate_structured_explanation resp title content = _create_detailed_fallback content title ∧
    (generate_structured_explanation resp title content).length = 3 := by
  have he : generate_structured_explanation resp title content =
      _create_detailed_fallback content title := by
    unfold generate_structured_explanation _parse_detailed_bubbles
    simp only []
    rw [if_pos h]
  refine ⟨he, ?_⟩
  rw [he]
  exact create_detailed_fallback_length content title

set_option maxRecDepth 4000 in
theorem c5_malformed_falls_back_witness :
    ((parsedSectionBubbles "prose").length < 3 ∨
      (parsedSectionBubbles "prose").any (fun b => pyLen b.assistant_message < 50) = true) ∧
    (generate_structured_explanation "prose" "Forces" "short content").length = 3 :=
  ⟨Or.inl (by decide),
   (c5_malformed_falls_back_to_three "prose" "Forces" "short content" (Or.inl (by decide))).2⟩

/-- A stored concept content of three paragraphs, well above 50 characters. -/
def cexLongContent : String :=
  "Forces cause acceleration in mechanics.\n\nFriction opposes relative motion between surfaces.\n\nGravity pulls every pair of masses together."

set_option maxRecDepth 40000 in
/-- C5 counterexample: a service output with no bubble headers parses to zero
bubbles (malformed), and the explanation becomes three bubbles built from the
stored content — not a single combined bubble. -/
theorem c5_counterexample :
    parsedSectionBubbles "The generation service returned plain prose." = [] ∧
    (generate_structured_explanation "The generation service returned plain prose."
        "Forces" cexLongContent).length = 3 ∧
    50 ≤ pyLen cexLongContent :=
  ⟨by decide, by decide, by decide⟩

/-- The first bubble (text, message type) of a response payload, if any. -/
def firstResponseMsg (r : HandleResult) : Option (String × String) :=
  match r.response with
  | some (.msgs (m :: _)) => some (m.assistant_message, m.message_type)
  | _ => none

/-- The reply of the unrecognized-input fallback of `handle_button_node`
(lines 624-648): the QA answer when the relevance check passes, the off-topic
redirect otherwise. -/
def unrecognizedButtonReply (g : GenService) (title : String) : String :=
  let rm := if check_question_relevance g.relevanceResp = "RELEVANT" then g.qaOut
            else "⚠️ **That" ++ apos ++ "s off-topic.**\n\nRight now we" ++ apos ++
              "re focusing on **" ++ title ++
              "**. Please ask questions about this concept or use the buttons below to continue."
  if pyTrim rm = "" then "⚠️ **Let" ++ apos ++ "s stay focused on " ++ title ++ ".**" else rm

/-- A concrete session awaiting a button action on the Forces chunk. -/
def sButtonW : SessionState :=
  { freshSessionDoc "Forces" "s1" "sess1" with
      concept_chunks := [chunkForces],
      expecting_button_action := true,
      current_question_concept := some "Forces" }

/-- A service with a nonempty examples text and a relevance classification
containing no RELEVANT substring. -/
def gButtonW : GenService :=
  { examplesOut := "EXAMPLES TEXT", relevanceResp := "NO", qaOut := "QA ANSWER" }

set_option maxRecDepth 40000 in
/-- C2 counterexample: in the expecting_button_action state the user text
`I need more examples` (the human-readable button phrase) is not dispatched to
the more_examples action: the response is the off-topic redirect of the
unrecognized-input fallback, not the examples text. -/
theorem c2_counterexample :
    (match (handle_user_input (some sButtonW) gButtonW "I need more examples").1.response with
     | some (.msgs (m :: _)) => m.assistant_message
     | _ => "") =
      "⚠️ **That" ++ apos ++ "s off-topic.**\n\nRight now we" ++ apos ++
        "re focusing on **Forces**. Please ask questions about this concept or use the buttons below to continue." ∧
    gButtonW.examplesOut = "EXAMPLES TEXT" :=
  ⟨by decide, rfl⟩

/-- C2 (amended): button matching is an exact equality test on the lowercased,
stripped user text against the canonical token or its fixed space/hyphen
variant — not a containment match.  `more_examples` (any letter case, padded
with whitespace) dispatches to the examples action, while the human-readable
phrase `I need more examples` falls through to the relevance-gated
unrecognized-input fallback. -/
theorem c2_button_matching_exact (s : SessionState) (g : GenService)
    (h1 : s.is_complete = false) (h2 : s.expecting_button_action = true)
    (h3 : s.concept_mastered = false)
    (h4 : s.current_chunk_index < s.concept_chunks.length) :
    firstResponseMsg (handle_user_input (some s) g "  More_Examples ").1 =
      some (if pyTrim g.examplesOut = "" then
              "Fallback example: " ++
                pySlice (s.concept_chunks.getD s.current_chunk_index ⟨0, "", ""⟩).content 100
            else g.examplesOut, "response") ∧
    firstResponseMsg (handle_user_input (some s) g "I need more examples").1 =
      some (unrecognizedButtonReply g
              (chunkTitle (s.concept_chunks.getD s.current_chunk_index ⟨0, "", ""⟩)),
            "response") := by
  have h4' : ¬ (s.current_chunk_index ≥ s.concept_chunks.length) := by omega
  have e1 : pyTrim (pyLower "  More_Examples ") = "more_examples" := by decide
  have e2 : pyTrim (pyLower "I need more examples") = "i need more examples" := by decide
  have n1 : "i need more examples" ≠ "more_examples" := by decide
  have n2 : "i need more examples" ≠ "more examples" := by decide
  have n3 : "i need more examples" ≠ "re_explain" := by decide
  have n4 : "i need more examples" ≠ "re-explain" := by decide
  have n5 : "i need more examples" ≠ "check_understanding" := by decide
  have n6 : "i need more examples" ≠ "check my understanding" := by decide
  have n7 : ("continue" : String) ≠ "present_concept" := by decide
  constructor
  · unfold handle_user_input invokeGraph handle_button_node
    simp only [handle_input_node, firstResponseMsg, buttonContinueTail, unrecognizedButtonReply,
      h1, h2, h3, h4', Option.getD_some, e1, n7, reduceCtorEq, Option.some.injEq,
      Bool.false_eq_true, if_true, if_false, eq_self_iff_true, true_or, false_and, false_or,
      or_false, and_true, true_and, ite_true, ite_false]
  · unfold handle_user_input invokeGraph handle_button_node
    simp only [handle_input_node, firstResponseMsg, buttonContinueTail, unrecognizedButtonReply,
      h1, h2, h3, h4', Option.getD_some, e2, n1, n2, n3, n4, n5, n6, n7, reduceCtorEq,
      Option.some.injEq, Bool.false_eq_true, if_true, if_false, eq_self_iff_true, true_or,
      false_and, false_or, or_false, and_true, true_and, ite_true, ite_false]

set_option maxRecDepth 40000 in
theorem c2_button_matching_exact_witness :
    firstResponseMsg (handle_user_input (some sButtonW) gButtonW "  More_Examples ").1 =
      some ("EXAMPLES TEXT", "response") := by
  have h := (c2_button_matching_exact sButtonW gButtonW rfl rfl rfl (by decide)).1
  rw [h]
  decide

/-- A session that has just mastered the Forces concept at threshold 2: the
title is in concepts_learned once and the mastery buttons are awaited. -/
def sMasteredW : SessionState :=
  { freshSessionDoc "Forces" "s1" "sess1" with
      concept_chunks := [chunkForces],
      expecting_button_action := true,
      concept_mastered := true,
      current_concept_correct_answers := 2,
      required_correct_answers := 2,
      concepts_learned := ["Forces"],
      current_question_concept := some "Forces" }

/-- Service outputs for the failing run: a follow-up question, keywords, and a
CORRECT evaluation verdict. -/
def gCorrectW : GenService :=
  { checkQOut := "Why do objects accelerate?", keywordsOut := some ["force"],
    evalResp := "VERDICT: CORRECT\nJUSTIFICATION: right" }

set_option maxRecDepth 100000 in
/-- C1 (evaluation at the failing input): pressing more_questions after mastery
sets concept_mastered to false, so the already-mastered guard of
evaluate_answer_node cannot fire; the next CORRECT answer reaches the
threshold branch again and appends the concept title to concepts_learned a
second time at the same chunk index. -/
theorem c1_duplicate_mastery_append :
    sMasteredW.concepts_learned = ["Forces"] ∧
    ((handle_user_input (some sMasteredW) gCorrectW "more_questions").2.map
        (fun t => (t.concepts_learned, t.expecting_answer, t.concept_mastered))) =
      some (["Forces"], true, false) ∧
    (((handle_user_input (some sMasteredW) gCorrectW "more_questions").2.bind
        (fun t => (handle_user_input (some t) gCorrectW "a net force acts on them").2)).map
        (fun t => (t.concepts_learned, t.current_stage))) =
      some (["Forces", "Forces"], "concept_mastered") :=
  ⟨rfl, by decide, by decide⟩

/-- C6: a fresh start on a topic whose chunk lookup (with its fallback) yields
at least one chunk returns current_stage explain, multiple_bubbles, a session
awaiting a button action, and exactly four messages: three concept-section
bubbles then one buttons bubble — for every generation-service output. -/
theorem c6_fresh_start_shape (repo fb : List Chunk) (g : GenService)
    (topic stid sid : String) (h : (if repo = [] then fb else repo) ≠ []) :
    (start_revision_session none repo fb g topic stid sid).1.current_stage = some "explain" ∧
    (start_revision_session none repo fb g topic stid sid).1.message_format =
      some "multiple_bubbles" ∧
    (start_revision_session none repo fb g topic stid sid).1.is_session_complete = false ∧
    ((start_revision_session none repo fb g topic stid sid).2.map
      SessionState.expecting_button_action) = some true ∧
    ∃ bs btn, (start_revision_session none repo fb g topic stid sid).1.response =
        some (.msgs (bs ++ [btn])) ∧ bs.length = 3 ∧
      (∀ b ∈ bs, b.message_type = "concept_section") ∧ btn.message_type = "buttons" := by
  have hlen : 0 < (if repo = [] then fb else repo).length := List.length_pos.mpr h
  unfold start_revision_session
  simp only []
  unfold invokeGraph
  simp only []
  set chunks := (if repo = [] then fb else repo) with hch
  split
  · unfold present_concept_node
    simp only []
    split
    · rename_i htop
      have hx : ("" : String) = "explain" := htop.1
      exact absurd hx (by decide)
    · split
      · rename_i hge
        have hge2 : chunks.length ≤ 0 := hge
        omega
      · exact ⟨rfl, rfl, rfl, rfl, _, _, rfl, gse_length _ _ _, gse_types _ _ _, rfl⟩
  · rename_i hx
    exact absurd rfl hx

theorem c6_fresh_start_shape_witness :
    (if ([chunkForces] : List Chunk) = [] then ([] : List Chunk) else [chunkForces]) ≠ [] ∧
    (start_revision_session none [chunkForces] [] {} "Forces" "s1" "sess1").1.current_stage =
      some "explain" :=
  ⟨by decide, (c6_fresh_start_shape [chunkForces] [] {} "Forces" "s1" "sess1" (by decide)).1⟩
